import Mathlib

/-!
Verification of the `gcmd` command-line client against its design
specification.  The Python sources are shallowly embedded: strings are
`List Char` where character-level behaviour matters, remote calls are
oracles passed in as function arguments, and exceptions are `Except`.
-/

namespace Gcmd

/-! ## `gcmd/utils.py` : identifier extraction -/

namespace Utils

/-- ASCII whitespace characters removed by Python's `str.strip()`. -/
def isPySpace (c : Char) : Bool :=
  c == ' ' || c == '\t' || c == '\n' || c == '\r' || c == '\x0b' || c == '\x0c'

/-- Python `str.strip()`: drop leading and trailing whitespace. -/
def pyStrip (s : List Char) : List Char :=
  (s.dropWhile isPySpace).rdropWhile isPySpace

/-- The characters whose presence marks the input as a URL rather than a
bare file ID (`['/', ':', '?', '#']` in `extract_file_id`). -/
def specialChars : List Char := ['/', ':', '?', '#']

/-- The character class `[a-zA-Z0-9-_]` used by the ID-capturing groups. -/
def idChar (c : Char) : Bool := c.isAlphanum || c == '-' || c == '_'

/-- One attempt of `re.search` at a fixed position: the patterns of
`extract_file_id` are a literal prefix (possibly one of several mutually
exclusive alternatives, tried in order) followed by a greedy nonempty
capture of `idChar`s. -/
def tryAt (alts : List (List Char)) (s : List Char) : Option (List Char) :=
  match alts.find? (fun lit => lit.isPrefixOf s) with
  | some lit =>
      let run := (s.drop lit.length).takeWhile idChar
      if run.isEmpty then none else some run
  | none => none

/-- `re.search`: try the pattern at each position, leftmost match wins. -/
def search (alts : List (List Char)) : List Char → Option (List Char)
  | [] => none
  | c :: rest =>
    match tryAt alts (c :: rest) with
    | some r => some r
    | none => search alts rest

/-- Pattern 1 of `extract_file_id`:
`docs\.google\.com/(?:document|spreadsheets|presentation)/d/([a-zA-Z0-9-_]+)`. -/
def docsPatternAlts : List (List Char) :=
  ["docs.google.com/document/d/".toList,
   "docs.google.com/spreadsheets/d/".toList,
   "docs.google.com/presentation/d/".toList]

/-- Pattern 2: `drive\.google\.com/file/d/([a-zA-Z0-9-_]+)`. -/
def filePatternAlts : List (List Char) := ["drive.google.com/file/d/".toList]

/-- Pattern 3: `drive\.google\.com/open\?id=([a-zA-Z0-9-_]+)`. -/
def openPatternAlts : List (List Char) := ["drive.google.com/open?id=".toList]

/-- Pattern 4: `drive\.google\.com/drive/folders/([a-zA-Z0-9-_]+)`. -/
def foldersPatternAlts : List (List Char) := ["drive.google.com/drive/folders/".toList]

/-- The ordered pattern list of `extract_file_id`. -/
def allPatterns : List (List (List Char)) :=
  [docsPatternAlts, filePatternAlts, openPatternAlts, foldersPatternAlts]

/-- The `ValueError` message raised when no pattern matches. -/
def unrecognizedMessage (input : List Char) : String :=
  "Could not extract file ID from: " ++ input.asString ++
  "\nSupported formats:\n  - File ID: 1abc123xyz" ++
  "\n  - Google Docs: https://docs.google.com/document/d/FILE_ID/edit" ++
  "\n  - Google Sheets: https://docs.google.com/spreadsheets/d/FILE_ID/edit" ++
  "\n  - Google Slides: https://docs.google.com/presentation/d/FILE_ID/edit" ++
  "\n  - Google Drive: https://drive.google.com/file/d/FILE_ID/view"

/-- `gcmd.utils.extract_file_id`: bare IDs (no `/:?#`) are returned
stripped; otherwise the ordered patterns are tried, first match wins; if
none matches a `ValueError` is raised. -/
def extract_file_id (s : List Char) : Except String (List Char) :=
  if s.all (fun c => !(specialChars.contains c)) then
    .ok (pyStrip s)
  else
    match allPatterns.findSome? (fun alts => search alts s) with
    | some r => .ok r
    | none => .error (unrecognizedMessage s)

/-! ### Lemmas about `pyStrip`, `tryAt` and `search` -/

theorem rdropWhile_append_rtakeWhile (p : Char → Bool) (l : List Char) :
    l.rdropWhile p ++ l.rtakeWhile p = l := by
  have h := List.takeWhile_append_dropWhile (p := p) (l := l.reverse)
  show (l.reverse.dropWhile p).reverse ++ (l.reverse.takeWhile p).reverse = l
  rw [← List.reverse_append, h, List.reverse_reverse]

theorem search_cons_none {alts : List (List Char)} {c : Char} {s : List Char}
    (h : tryAt alts (c :: s) = none) :
    search alts (c :: s) = search alts s := by
  simp [search, h]

theorem search_cons_some {alts : List (List Char)} {c : Char} {s r : List Char}
    (h : tryAt alts (c :: s) = some r) :
    search alts (c :: s) = some r := by
  simp [search, h]

theorem tryAt_eq_none {alts : List (List Char)} {s : List Char}
    (h : ∀ lit ∈ alts, ¬ lit <+: s) : tryAt alts s = none := by
  unfold tryAt
  rw [List.find?_eq_none.mpr]
  intro lit hlit
  simpa using h lit hlit

theorem not_prefix_append {lit t : List Char}
    (h1 : ¬ t <+: lit) (h2 : ¬ lit <+: t) (ys : List Char) :
    ¬ lit <+: t ++ ys := fun hp =>
  (List.prefix_or_prefix_of_prefix hp (List.prefix_append t ys)).elim h2 h1

theorem tryAt_append_eq_none {alts : List (List Char)} {t : List Char}
    (h : ∀ lit ∈ alts, ¬ t <+: lit ∧ ¬ lit <+: t) (ys : List Char) :
    tryAt alts (t ++ ys) = none := by
  apply tryAt_eq_none
  intro lit hlit
  exact not_prefix_append (h lit hlit).1 (h lit hlit).2 ys

/-- Skipping a concrete prefix `xs` in which the pattern cannot start:
every nonempty suffix of `xs` is prefix-incomparable with every literal. -/
theorem search_append_eq {alts : List (List Char)} (xs : List Char)
    (h : ∀ t ∈ xs.tails, t ≠ [] → ∀ lit ∈ alts, ¬ t <+: lit ∧ ¬ lit <+: t)
    (ys : List Char) :
    search alts (xs ++ ys) = search alts ys := by
  induction xs with
  | nil => rfl
  | cons c cs ih =>
    rw [List.cons_append, search_cons_none, ih]
    · intro t ht hne
      exact h t (by rw [List.mem_tails] at *; exact ht.trans (List.suffix_cons c cs)) hne
    · have := tryAt_append_eq_none
        (h (c :: cs) (by rw [List.mem_tails]) (by simp)) ys
      simpa using this

/-- A pattern whose every alternative contains a character absent from `s`
matches nowhere in `s`. -/
theorem search_none_of_missing {alts : List (List Char)} (s : List Char)
    (h : ∀ lit ∈ alts, ∃ c, c ∈ lit ∧ c ∉ s) : search alts s = none := by
  induction s with
  | nil => rfl
  | cons a as ih =>
    rw [search_cons_none, ih]
    · intro lit hlit
      obtain ⟨c, hc, hcs⟩ := h lit hlit
      exact ⟨c, hc, fun hmem => hcs (List.mem_cons_of_mem a hmem)⟩
    · apply tryAt_eq_none
      intro lit hlit hpre
      obtain ⟨c, hc, hcs⟩ := h lit hlit
      exact hcs (hpre.sublist.subset hc)

theorem mem_append_left_of_concrete {s t : List Char} {c : Char}
    (h : c ∈ s) : c ∈ s ++ t := List.mem_append_left t h

theorem all_special_false {s : List Char} (h : '/' ∈ s) :
    (s.all fun c => !(specialChars.contains c)) = false := by
  rw [List.all_eq_false]
  exact ⟨'/', h, by decide⟩

theorem takeWhile_id_append {id sfx : List Char} (hchars : ∀ c ∈ id, idChar c)
    (hsfx : sfx.takeWhile idChar = []) :
    (id ++ sfx).takeWhile idChar = id := by
  rw [List.takeWhile_append_of_pos hchars, hsfx, List.append_nil]

theorem search_append_some {alts : List (List Char)} {l ys r : List Char}
    (hl : l ≠ []) (h : tryAt alts (l ++ ys) = some r) :
    search alts (l ++ ys) = some r := by
  cases l with
  | nil => exact absurd rfl hl
  | cons c cs => rw [List.cons_append] at h ⊢; exact search_cons_some h

/-- At a position where the `i`-th alternative literally matches and the
earlier alternatives are prefix-incomparable with it, `tryAt` captures the
maximal `idChar` run after the literal. -/
theorem tryAt_found (pre post : List (List Char)) {lit id sfx : List Char}
    (hpre : ∀ l ∈ pre, ¬ lit <+: l ∧ ¬ l <+: lit)
    (hne : id ≠ []) (hchars : ∀ c ∈ id, idChar c)
    (hsfx : sfx.takeWhile idChar = []) :
    tryAt (pre ++ lit :: post) (lit ++ (id ++ sfx)) = some id := by
  unfold tryAt
  rw [List.find?_append, List.find?_eq_none.mpr, Option.none_or,
      List.find?_cons_of_pos]
  · have hdrop : (lit ++ (id ++ sfx)).drop lit.length = id ++ sfx :=
      List.drop_left lit (id ++ sfx)
    simp only [hdrop, takeWhile_id_append hchars hsfx]
    simp [List.isEmpty_iff, hne]
  · simp [List.isPrefixOf_iff_prefix]
  · intro l hl
    simp only [Bool.not_eq_true, List.isPrefixOf_iff_prefix,
      decide_eq_true_eq]
    intro hcontra
    exact not_prefix_append (hpre l hl).1 (hpre l hl).2 (id ++ sfx) hcontra

theorem search_pattern_none_no_dot {alts : List (List Char)}
    (hd : ∀ lit ∈ alts, '.' ∈ lit) {s : List Char} (h : '.' ∉ s) :
    search alts s = none :=
  search_none_of_missing s (fun lit hl => ⟨'.', hd lit hl, h⟩)

theorem no_dot_of_idChars {id : List Char} (hchars : ∀ c ∈ id, idChar c) :
    '.' ∉ id := fun hmem => absurd (hchars '.' hmem) (by decide)

theorem no_dot_append {id sfx : List Char} (hchars : ∀ c ∈ id, idChar c)
    (hsfx : '.' ∉ sfx) : '.' ∉ id ++ sfx := by
  intro hmem
  rcases List.mem_append.mp hmem with h | h
  · exact no_dot_of_idChars hchars h
  · exact hsfx h

theorem search_document (id : List Char) (hne : id ≠ [])
    (hchars : ∀ c ∈ id, idChar c) :
    search docsPatternAlts
      ("https://docs.google.com/document/d/".toList ++ id ++ "/edit".toList)
      = some id := by
  rw [List.append_assoc,
    show "https://docs.google.com/document/d/".toList
      = "https://".toList ++ "docs.google.com/document/d/".toList by decide,
    List.append_assoc, search_append_eq "https://".toList (by decide)]
  exact search_append_some (by decide)
    (tryAt_found [] ["docs.google.com/spreadsheets/d/".toList,
      "docs.google.com/presentation/d/".toList] (by simp) hne hchars (by decide))

theorem search_spreadsheets (id : List Char) (hne : id ≠ [])
    (hchars : ∀ c ∈ id, idChar c) :
    search docsPatternAlts
      ("https://docs.google.com/spreadsheets/d/".toList ++ id ++ "/edit".toList)
      = some id := by
  rw [List.append_assoc,
    show "https://docs.google.com/spreadsheets/d/".toList
      = "https://".toList ++ "docs.google.com/spreadsheets/d/".toList by decide,
    List.append_assoc, search_append_eq "https://".toList (by decide)]
  exact search_append_some (by decide)
    (tryAt_found ["docs.google.com/document/d/".toList]
      ["docs.google.com/presentation/d/".toList]
      (by decide) hne hchars (by decide))

theorem search_presentation (id : List Char) (hne : id ≠ [])
    (hchars : ∀ c ∈ id, idChar c) :
    search docsPatternAlts
      ("https://docs.google.com/presentation/d/".toList ++ id ++ "/edit".toList)
      = some id := by
  rw [List.append_assoc,
    show "https://docs.google.com/presentation/d/".toList
      = "https://".toList ++ "docs.google.com/presentation/d/".toList by decide,
    List.append_assoc, search_append_eq "https://".toList (by decide)]
  exact search_append_some (by decide)
    (tryAt_found ["docs.google.com/document/d/".toList,
      "docs.google.com/spreadsheets/d/".toList] []
      (by decide) hne hchars (by decide))

theorem search_file (id : List Char) (hne : id ≠ [])
    (hchars : ∀ c ∈ id, idChar c) :
    search filePatternAlts
      ("https://drive.google.com/file/d/".toList ++ id ++ "/view".toList)
      = some id := by
  rw [List.append_assoc,
    show "https://drive.google.com/file/d/".toList
      = "https://".toList ++ "drive.google.com/file/d/".toList by decide,
    List.append_assoc, search_append_eq "https://".toList (by decide)]
  exact search_append_some (by decide)
    (tryAt_found [] [] (by simp) hne hchars (by decide))

theorem search_docs_none_on_file (id : List Char)
    (hchars : ∀ c ∈ id, idChar c) :
    search docsPatternAlts
      ("https://drive.google.com/file/d/".toList ++ id ++ "/view".toList)
      = none := by
  rw [List.append_assoc,
    search_append_eq "https://drive.google.com/file/d/".toList (by decide)]
  exact search_pattern_none_no_dot (by decide)
    (no_dot_append hchars (by decide))

theorem search_open (id : List Char) (hne : id ≠ [])
    (hchars : ∀ c ∈ id, idChar c) :
    search openPatternAlts
      ("https://drive.google.com/open?id=".toList ++ id) = some id := by
  rw [show "https://drive.google.com/open?id=".toList
      = "https://".toList ++ "drive.google.com/open?id=".toList by decide,
    List.append_assoc, search_append_eq "https://".toList (by decide)]
  conv_lhs => rw [← List.append_nil id]
  exact search_append_some (by decide)
    (tryAt_found [] [] (by simp) hne hchars (by decide))

theorem search_docs_none_on_open (id : List Char)
    (hchars : ∀ c ∈ id, idChar c) :
    search docsPatternAlts
      ("https://drive.google.com/open?id=".toList ++ id) = none := by
  rw [search_append_eq "https://drive.google.com/open?id=".toList (by decide)]
  exact search_pattern_none_no_dot (by decide) (no_dot_of_idChars hchars)

theorem search_file_none_on_open (id : List Char)
    (hchars : ∀ c ∈ id, idChar c) :
    search filePatternAlts
      ("https://drive.google.com/open?id=".toList ++ id) = none := by
  rw [search_append_eq "https://drive.google.com/open?id=".toList (by decide)]
  exact search_pattern_none_no_dot (by decide) (no_dot_of_idChars hchars)

theorem search_folders (id : List Char) (hne : id ≠ [])
    (hchars : ∀ c ∈ id, idChar c) :
    search foldersPatternAlts
      ("https://drive.google.com/drive/folders/".toList ++ id) = some id := by
  rw [show "https://drive.google.com/drive/folders/".toList
      = "https://".toList ++ "drive.google.com/drive/folders/".toList by decide,
    List.append_assoc, search_append_eq "https://".toList (by decide)]
  conv_lhs => rw [← List.append_nil id]
  exact search_append_some (by decide)
    (tryAt_found [] [] (by simp) hne hchars (by decide))

theorem search_docs_none_on_folders (id : List Char)
    (hchars : ∀ c ∈ id, idChar c) :
    search docsPatternAlts
      ("https://drive.google.com/drive/folders/".toList ++ id) = none := by
  rw [search_append_eq "https://drive.google.com/drive/folders/".toList (by decide)]
  exact search_pattern_none_no_dot (by decide) (no_dot_of_idChars hchars)

theorem search_file_none_on_folders (id : List Char)
    (hchars : ∀ c ∈ id, idChar c) :
    search filePatternAlts
      ("https://drive.google.com/drive/folders/".toList ++ id) = none := by
  rw [search_append_eq "https://drive.google.com/drive/folders/".toList (by decide)]
  exact search_pattern_none_no_dot (by decide) (no_dot_of_idChars hchars)

theorem search_open_none_on_folders (id : List Char)
    (hchars : ∀ c ∈ id, idChar c) :
    search openPatternAlts
      ("https://drive.google.com/drive/folders/".toList ++ id) = none := by
  rw [search_append_eq "https://drive.google.com/drive/folders/".toList (by decide)]
  exact search_pattern_none_no_dot (by decide) (no_dot_of_idChars hchars)

/-! ### Claims C4 and C5 -/

/-- C4: for every input string containing none of `'/'`, `':'`, `'?'`,
`'#'`, `extract_file_id` succeeds and returns the input unchanged except
for stripping surrounding whitespace: the result is `pyStrip s`, and the
input decomposes as whitespace ++ result ++ whitespace. -/
theorem extract_file_id_bare_identity (s : List Char)
    (h : ∀ c ∈ s, c ∉ specialChars) :
    extract_file_id s = .ok (pyStrip s) ∧
    ∃ pre suf, s = pre ++ pyStrip s ++ suf ∧
      (∀ c ∈ pre, isPySpace c) ∧ (∀ c ∈ suf, isPySpace c) := by
  constructor
  · unfold extract_file_id
    rw [if_pos]
    rw [List.all_eq_true]
    intro c hc
    simpa [specialChars] using h c hc
  · refine ⟨s.takeWhile isPySpace, (s.dropWhile isPySpace).rtakeWhile isPySpace,
      ?_, ?_, ?_⟩
    · unfold pyStrip
      have h2 := rdropWhile_append_rtakeWhile isPySpace (s.dropWhile isPySpace)
      conv_lhs => rw [← List.takeWhile_append_dropWhile (p := isPySpace) (l := s),
        ← h2]
      rw [List.append_assoc]
    · intro c hc; exact List.mem_takeWhile_imp hc
    · intro c hc; exact List.mem_rtakeWhile_imp hc

/-- Witness for C4 at the concrete input `"  abc-123_XYZ \t"`. -/
theorem extract_file_id_bare_identity_witness :
    extract_file_id "  abc-123_XYZ \t".toList
      = .ok (pyStrip "  abc-123_XYZ \t".toList) ∧
    ∃ pre suf, "  abc-123_XYZ \t".toList
      = pre ++ pyStrip "  abc-123_XYZ \t".toList ++ suf ∧
      (∀ c ∈ pre, isPySpace c) ∧ (∀ c ∈ suf, isPySpace c) :=
  extract_file_id_bare_identity _ (by decide)

/-- C5: for every identifier made of `[a-zA-Z0-9-_]` characters, each of
the supported URL shapes yields exactly the captured identifier segment
(first matching pattern wins), and a URL-shaped input matching no pattern
raises the error that enumerates the supported formats. -/
theorem extract_file_id_url_shapes (id : List Char) (hne : id ≠ [])
    (hchars : ∀ c ∈ id, idChar c) :
    extract_file_id
      ("https://docs.google.com/document/d/".toList ++ id ++ "/edit".toList)
      = .ok id ∧
    extract_file_id
      ("https://docs.google.com/spreadsheets/d/".toList ++ id ++ "/edit".toList)
      = .ok id ∧
    extract_file_id
      ("https://docs.google.com/presentation/d/".toList ++ id ++ "/edit".toList)
      = .ok id ∧
    extract_file_id
      ("https://drive.google.com/file/d/".toList ++ id ++ "/view".toList)
      = .ok id ∧
    extract_file_id ("https://drive.google.com/open?id=".toList ++ id)
      = .ok id ∧
    extract_file_id ("https://drive.google.com/drive/folders/".toList ++ id)
      = .ok id ∧
    extract_file_id "https://example.com/unknown".toList
      = .error (unrecognizedMessage "https://example.com/unknown".toList) := by
  refine ⟨?_, ?_, ?_, ?_, ?_, ?_, ?_⟩
  · have hmem : '/' ∈ "https://docs.google.com/document/d/".toList
        ++ id ++ "/edit".toList :=
      List.mem_append_left _ (List.mem_append_left _ (by decide))
    unfold extract_file_id
    rw [if_neg (by rw [all_special_false hmem]; exact Bool.false_ne_true)]
    simp only [allPatterns, List.findSome?_cons, search_document id hne hchars]
  · have hmem : '/' ∈ "https://docs.google.com/spreadsheets/d/".toList
        ++ id ++ "/edit".toList :=
      List.mem_append_left _ (List.mem_append_left _ (by decide))
    unfold extract_file_id
    rw [if_neg (by rw [all_special_false hmem]; exact Bool.false_ne_true)]
    simp only [allPatterns, List.findSome?_cons,
      search_spreadsheets id hne hchars]
  · have hmem : '/' ∈ "https://docs.google.com/presentation/d/".toList
        ++ id ++ "/edit".toList :=
      List.mem_append_left _ (List.mem_append_left _ (by decide))
    unfold extract_file_id
    rw [if_neg (by rw [all_special_false hmem]; exact Bool.false_ne_true)]
    simp only [allPatterns, List.findSome?_cons,
      search_presentation id hne hchars]
  · have hmem : '/' ∈ "https://drive.google.com/file/d/".toList
        ++ id ++ "/view".toList :=
      List.mem_append_left _ (List.mem_append_left _ (by decide))
    unfold extract_file_id
    rw [if_neg (by rw [all_special_false hmem]; exact Bool.false_ne_true)]
    simp only [allPatterns, List.findSome?_cons,
      search_docs_none_on_file id hchars, search_file id hne hchars]
  · have hmem : '/' ∈ "https://drive.google.com/open?id=".toList ++ id :=
      List.mem_append_left _ (by decide)
    unfold extract_file_id
    rw [if_neg (by rw [all_special_false hmem]; exact Bool.false_ne_true)]
    simp only [allPatterns, List.findSome?_cons,
      search_docs_none_on_open id hchars, search_file_none_on_open id hchars,
      search_open id hne hchars]
  · have hmem : '/' ∈ "https://drive.google.com/drive/folders/".toList ++ id :=
      List.mem_append_left _ (by decide)
    unfold extract_file_id
    rw [if_neg (by rw [all_special_false hmem]; exact Bool.false_ne_true)]
    simp only [allPatterns, List.findSome?_cons,
      search_docs_none_on_folders id hchars,
      search_file_none_on_folders id hchars,
      search_open_none_on_folders id hchars, search_folders id hne hchars]
  · rfl

/-- Witness for C5 at the concrete identifier `"1abc123xyz"`. -/
theorem extract_file_id_url_shapes_witness :
    extract_file_id
      ("https://docs.google.com/document/d/".toList ++ "1abc123xyz".toList
        ++ "/edit".toList) = .ok "1abc123xyz".toList ∧
    extract_file_id
      ("https://docs.google.com/spreadsheets/d/".toList ++ "1abc123xyz".toList
        ++ "/edit".toList) = .ok "1abc123xyz".toList ∧
    extract_file_id
      ("https://docs.google.com/presentation/d/".toList ++ "1abc123xyz".toList
        ++ "/edit".toList) = .ok "1abc123xyz".toList ∧
    extract_file_id
      ("https://drive.google.com/file/d/".toList ++ "1abc123xyz".toList
        ++ "/view".toList) = .ok "1abc123xyz".toList ∧
    extract_file_id
      ("https://drive.google.com/open?id=".toList ++ "1abc123xyz".toList)
      = .ok "1abc123xyz".toList ∧
    extract_file_id
      ("https://drive.google.com/drive/folders/".toList ++ "1abc123xyz".toList)
      = .ok "1abc123xyz".toList ∧
    extract_file_id "https://example.com/unknown".toList
      = .error (unrecognizedMessage "https://example.com/unknown".toList) :=
  extract_file_id_url_shapes "1abc123xyz".toList (by decide) (by decide)

end Utils

/-! ## `gcmd/sheets.py` : CSV export with retry/backoff -/

namespace Sheets

/-- One outcome of the raw `http.request(url)` call in
`export_sheet_as_csv`: a response with a status code and a body (the body
is carried already decoded from UTF-8), or a transport-level `HttpError`
carrying its message. -/
inductive HttpResult where
  | resp (status : Nat) (body : String)
  | httpError (msg : String)

/-- The error recorded (`last_error`) by a retryable failure, if the
outcome is retryable: a 429 records `Rate limited (HTTP 429)`, a transport
error records its own message; a response with any other status records
nothing (it is not retried). -/
def failMsg : HttpResult → Option String
  | .resp s _ => if s = 429 then some "Rate limited (HTTP 429)" else none
  | .httpError e => some e

/-- The `for attempt in range(max_retries)` loop of `export_sheet_as_csv`,
with `fuel = max_retries - attempt` iterations left.  The result pairs the
returned/raised value with the list of sleep durations (in seconds)
performed, in order.  The non-200/non-429 branch raises a plain
`Exception` which the `except HttpError` clause does not catch, so it
propagates out of the loop at once. -/
def exportLoop (http : Nat → HttpResult) (max_retries : Nat) :
    Nat → Nat → Option String → List Nat → Except String String × List Nat
  | 0, _, last_error, sleeps =>
      (.error ("Failed to export sheet as CSV after " ++ toString max_retries
        ++ " attempts: " ++ last_error.getD "None"), sleeps)
  | fuel + 1, attempt, _last_error, sleeps =>
      match http attempt with
      | .resp status body =>
          if status = 200 then (.ok body, sleeps)
          else if status = 429 then
            exportLoop http max_retries fuel (attempt + 1)
              (some "Rate limited (HTTP 429)") (sleeps ++ [2 ^ attempt])
          else
            (.error ("Failed to export sheet: HTTP " ++ toString status), sleeps)
      | .httpError e =>
          exportLoop http max_retries fuel (attempt + 1) (some e)
            (if attempt < max_retries - 1 then sleeps ++ [2 ^ attempt] else sleeps)

/-- `gcmd.sheets.export_sheet_as_csv`, with the HTTP transport abstracted
as an oracle from the 0-based attempt number to its outcome. -/
def export_sheet_as_csv (http : Nat → HttpResult) (max_retries : Nat := 5) :
    Except String String × List Nat :=
  exportLoop http max_retries max_retries 0 none []

/-- Loop invariant for the success path: `k` retryable failures starting
at `attempt`, then a 200, yield the 200 body after sleeping
`2^attempt, ..., 2^(attempt+k-1)` seconds. -/
theorem exportLoop_ok (http : Nat → HttpResult) (max_retries : Nat)
    (body : String) :
    ∀ (k fuel attempt : Nat) (last : Option String) (sleeps : List Nat),
    fuel + attempt = max_retries →
    k < fuel →
    (∀ i, attempt ≤ i → i < attempt + k → (failMsg (http i)).isSome) →
    http (attempt + k) = .resp 200 body →
    exportLoop http max_retries fuel attempt last sleeps
      = (.ok body, sleeps ++ (List.range' attempt k).map (fun i => 2 ^ i)) := by
  intro k
  induction k with
  | zero =>
    intro fuel attempt last sleeps hmax hk _hfail h200
    obtain ⟨f, rfl⟩ : ∃ f, fuel = f + 1 := ⟨fuel - 1, by omega⟩
    rw [Nat.add_zero] at h200
    simp [exportLoop, h200]
  | succ k ih =>
    intro fuel attempt last sleeps hmax hk hfail h200
    obtain ⟨f, rfl⟩ : ∃ f, fuel = f + 1 := ⟨fuel - 1, by omega⟩
    have hcur := hfail attempt (Nat.le_refl _) (by omega)
    have hrec : ∀ last' : Option String,
        exportLoop http max_retries f (attempt + 1) last'
          (sleeps ++ [2 ^ attempt])
          = (.ok body, sleeps ++ (List.range' attempt (k + 1)).map
              (fun i => 2 ^ i)) := by
      intro last'
      rw [ih f (attempt + 1) last' (sleeps ++ [2 ^ attempt]) (by omega)
        (by omega) (fun i h1 h2 => hfail i (by omega) (by omega))
        (by rw [show attempt + 1 + k = attempt + (k + 1) by omega]; exact h200)]
      rw [List.range'_succ]
      simp [List.append_assoc]
    cases hr : http attempt with
    | resp s b =>
      rw [hr] at hcur
      have hs : s = 429 := by
        by_contra hne
        simp [failMsg, hne] at hcur
      subst hs
      simp only [exportLoop, hr, if_pos rfl, if_neg (by decide : (429 : Nat) ≠ 200)]
      exact hrec _
    | httpError e =>
      have hlt : attempt < max_retries - 1 := by omega
      simp only [exportLoop, hr, if_pos hlt]
      exact hrec _

/-- Loop invariant for the exhaustion path: when every remaining attempt
fails retryably, the loop ends with the aggregated message naming the
error recorded on the final attempt. -/
theorem exportLoop_fail (http : Nat → HttpResult) (max_retries : Nat) :
    ∀ (fuel attempt : Nat) (last : Option String) (sleeps : List Nat),
    fuel + attempt = max_retries →
    0 < fuel →
    (∀ i, attempt ≤ i → i < max_retries → (failMsg (http i)).isSome) →
    (exportLoop http max_retries fuel attempt last sleeps).1
      = .error ("Failed to export sheet as CSV after " ++ toString max_retries
          ++ " attempts: " ++ ((failMsg (http (max_retries - 1))).getD "None")) := by
  intro fuel
  induction fuel with
  | zero => intro _ _ _ _ h; omega
  | succ f ih =>
    intro attempt last sleeps hmax _hpos hfail
    have hcur := hfail attempt (Nat.le_refl _) (by omega)
    cases hr : http attempt with
    | resp s b =>
      rw [hr] at hcur
      have hs : s = 429 := by
        by_contra hne
        simp [failMsg, hne] at hcur
      subst hs
      simp only [exportLoop, hr, if_pos rfl, if_neg (by decide : (429 : Nat) ≠ 200)]
      rcases Nat.eq_zero_or_pos f with hf | hf
      · subst hf
        have hlast : attempt = max_retries - 1 := by omega
        simp [exportLoop, ← hlast, hr, failMsg]
      · exact ih (attempt + 1) _ _ (by omega) hf
          (fun i h1 h2 => hfail i (by omega) h2)
    | httpError e =>
      simp only [exportLoop, hr]
      rcases Nat.eq_zero_or_pos f with hf | hf
      · subst hf
        have hlast : attempt = max_retries - 1 := by omega
        simp [exportLoop, ← hlast, hr, failMsg]
      · exact ih (attempt + 1) _ _ (by omega) hf
          (fun i h1 h2 => hfail i (by omega) h2)

/-- C1: with the default budget of 5 attempts, `N ≤ 4` consecutive 429
responses followed by a 200 make `export_sheet_as_csv` sleep exactly
`2^0, ..., 2^(N-1)` seconds in order and return the 200 body; and when all
5 attempts fail retryably, it raises a single aggregated error naming the
error observed on the last attempt. -/
theorem export_sheet_backoff_schedule (http : Nat → HttpResult) (N : Nat)
    (body : String) (hN : N ≤ 4)
    (h429 : ∀ i < N, ∃ b, http i = .resp 429 b)
    (h200 : http N = .resp 200 body)
    (http' : Nat → HttpResult)
    (hfail : ∀ i < 5, (failMsg (http' i)).isSome) :
    export_sheet_as_csv http
      = (.ok body, (List.range N).map (fun i => 2 ^ i)) ∧
    (export_sheet_as_csv http').1
      = .error ("Failed to export sheet as CSV after 5 attempts: "
          ++ ((failMsg (http' 4)).getD "None")) := by
  constructor
  · rw [export_sheet_as_csv,
      exportLoop_ok http 5 body N 5 0 none [] (by omega) (by omega)
        (fun i h1 h2 => by
          obtain ⟨b, hb⟩ := h429 i (by omega)
          rw [hb]; simp [failMsg])
        (by rw [Nat.zero_add]; exact h200)]
    rw [List.range_eq_range', List.nil_append]
  · rw [export_sheet_as_csv,
      exportLoop_fail http' 5 5 0 none [] (by omega) (by omega)
        (fun i h1 h2 => hfail i h2)]
    rfl

/-- Witness for C1: two 429s then a 200 sleep `[1, 2]` and return the
body; five transport failures aggregate the last message. -/
theorem export_sheet_backoff_schedule_witness :
    export_sheet_as_csv (fun i => if i < 2 then .resp 429 "" else .resp 200 "a,b")
      = (.ok "a,b", (List.range 2).map (fun i => 2 ^ i)) ∧
    (export_sheet_as_csv (fun _ => .httpError "boom")).1
      = .error ("Failed to export sheet as CSV after 5 attempts: "
          ++ ((failMsg ((fun _ => HttpResult.httpError "boom") 4)).getD "None")) :=
  export_sheet_backoff_schedule
    (fun i => if i < 2 then .resp 429 "" else .resp 200 "a,b") 2 "a,b"
    (by omega) (fun i hi => ⟨"", by simp [hi]⟩) rfl
    (fun _ => .httpError "boom") (fun i _ => rfl)

/-- C2 counterexample: an HTTP 500 on the very first attempt aborts the
function immediately — no retry and no sleep happen, even though every
later attempt would return 200 — because the raised `Exception` is not an
`HttpError` and so is not caught by the retry loop. -/
theorem export_sheet_aborts_counterexample :
    export_sheet_as_csv (fun i => if i = 0 then .resp 500 "" else .resp 200 "ok")
      = (.error "Failed to export sheet: HTTP 500", []) := rfl

/-- C2 amended: a response status that is neither 200 nor 429 makes
`export_sheet_as_csv` raise `Failed to export sheet: HTTP <status>`
immediately, with no retry and no sleep; only transport-level `HttpError`s
(and 429s) are recorded and retried up to the attempt budget. -/
theorem export_sheet_other_status_aborts (http : Nat → HttpResult) (s : Nat)
    (b : String) (hs200 : s ≠ 200) (hs429 : s ≠ 429)
    (h0 : http 0 = .resp s b) :
    export_sheet_as_csv http
      = (.error ("Failed to export sheet: HTTP " ++ toString s), []) ∧
    ∀ (http' : Nat → HttpResult) (e body : String) (k : Nat), k < 5 →
      (∀ i < k, http' i = .httpError e) → http' k = .resp 200 body →
      export_sheet_as_csv http'
        = (.ok body, (List.range k).map (fun i => 2 ^ i)) := by
  constructor
  · rw [export_sheet_as_csv]
    simp only [exportLoop, h0, if_neg hs200, if_neg hs429]
  · intro http' e body k hk herr h200
    rw [export_sheet_as_csv,
      exportLoop_ok http' 5 body k 5 0 none [] (by omega) (by omega)
        (fun i h1 h2 => by rw [herr i (by omega)]; simp [failMsg])
        (by rw [Nat.zero_add]; exact h200)]
    rw [List.range_eq_range', List.nil_append]

/-- Witness for the amended C2 at status 500 on attempt 0. -/
theorem export_sheet_other_status_aborts_witness :
    export_sheet_as_csv (fun i => if i = 0 then .resp 500 "" else .resp 200 "ok")
      = (.error ("Failed to export sheet: HTTP " ++ toString 500), []) ∧
    ∀ (http' : Nat → HttpResult) (e body : String) (k : Nat), k < 5 →
      (∀ i < k, http' i = .httpError e) → http' k = .resp 200 body →
      export_sheet_as_csv http'
        = (.ok body, (List.range k).map (fun i => 2 ^ i)) :=
  export_sheet_other_status_aborts
    (fun i => if i = 0 then .resp 500 "" else .resp 200 "ok") 500 ""
    (by omega) (by omega) rfl

/-! ### `export_spreadsheet_as_csv` (batch export) -/

/-- The `sheets.properties` record of one sheet in the spreadsheet
metadata; every field may be absent. -/
structure SheetProps where
  sheetId : Option Nat
  title : Option String
  index : Option Nat

/-- One entry of the list built by `list_sheets`. -/
structure SheetInfo where
  sheetId : Option Nat
  title : String
  index : Nat
deriving DecidableEq

/-- `gcmd.sheets.list_sheets`: read each sheet's properties with defaults
(`Untitled`, index 0) and sort ascending by index (Python `sorted` is a
stable mergesort). -/
def list_sheets (metadataSheets : List SheetProps) : List SheetInfo :=
  (metadataSheets.map fun props =>
    { sheetId := props.sheetId
      title := props.title.getD "Untitled"
      index := props.index.getD 0 }).mergeSort
    (fun a b => a.index ≤ b.index)

/-- The character class `[<>:"/\\|?*]` replaced by `_` in titles. -/
def sanitizeChar (c : Char) : Char :=
  if c ∈ ['<', '>', ':', '"', '/', '\\', '|', '?', '*'] then '_' else c

/-- `re.sub` of the unsafe character class with `_`. -/
def sanitize (s : String) : String := ⟨s.toList.map sanitizeChar⟩

/-- The per-sheet body of the export loop: on success the sheet's file
path is kept, on failure the sheet is logged and skipped. -/
def exportFiles (output_path : String)
    (exportSheet : SheetInfo → Except String String) :
    List SheetInfo → List String :=
  List.filterMap fun sheet =>
    match exportSheet sheet with
    | .ok _ => some (output_path ++ "/" ++ sanitize sheet.title ++ ".csv")
    | .error _ => none

/-- `gcmd.sheets.export_spreadsheet_as_csv` with the per-sheet exporter
(`export_sheet_as_csv` plus the file write) abstracted as an oracle.
A non-empty `sheet_names` filters the sheets and raises when nothing
matches; file paths are `<output-dir>/<safe-title>/<safe-sheet>.csv`. -/
def export_spreadsheet_as_csv (metadataTitle : String)
    (metadataSheets : List SheetProps) (outputDir : String)
    (sheetNames : Option (List String))
    (exportSheet : SheetInfo → Except String String) :
    Except String (List String) :=
  let safe_title := sanitize metadataTitle
  let output_path := outputDir ++ "/" ++ safe_title
  let sheets := list_sheets metadataSheets
  match sheetNames with
  | some names =>
      if names.isEmpty then .ok (exportFiles output_path exportSheet sheets)
      else
        let filtered := sheets.filter fun s => names.contains s.title
        if filtered.isEmpty then
          .error ("No sheets found matching: [" ++
            String.intercalate ", " (names.map fun n => "\x27" ++ n ++ "\x27")
            ++ "]")
        else .ok (exportFiles output_path exportSheet filtered)
  | none => .ok (exportFiles output_path exportSheet sheets)

theorem exportFiles_eq_map_filter (output_path : String)
    (exportSheet : SheetInfo → Except String String) (l : List SheetInfo) :
    exportFiles output_path exportSheet l
      = (l.filter fun s => (exportSheet s).isOk).map
          (fun s => output_path ++ "/" ++ sanitize s.title ++ ".csv") := by
  induction l with
  | nil => rfl
  | cons s ss ih =>
    cases hs : exportSheet s with
    | ok v =>
      simp [exportFiles, List.filterMap_cons, hs, Except.isOk, Except.toBool,
        List.filter_cons] at ih ⊢
      exact ih
    | error e =>
      simp [exportFiles, List.filterMap_cons, hs, Except.isOk, Except.toBool,
        List.filter_cons] at ih ⊢
      exact ih

/-- Example sheet metadata `[A, B, C]` for the batch-export example. -/
def exampleSheets : List SheetProps :=
  [{ sheetId := some 10, title := some "A", index := some 0 },
   { sheetId := some 11, title := some "B", index := some 1 },
   { sheetId := some 12, title := some "C", index := some 2 }]

/-- Example exporter that raises on sheet `B` and succeeds elsewhere. -/
def exampleExporter (s : SheetInfo) : Except String String :=
  if s.title = "B" then .error "boom" else .ok "csv"

/-- C3: `export_spreadsheet_as_csv` (no name filter) processes the sheets
in ascending index order; a failing sheet is skipped without aborting the
rest, and the result is exactly the paths of the sheets whose export
succeeded, in that same order; in particular for sheets `[A, B, C]` where
`B`'s export raises, the result is the paths for `A` and `C`. -/
theorem export_spreadsheet_skips_failed (metadataTitle : String)
    (metadataSheets : List SheetProps) (outputDir : String)
    (exportSheet : SheetInfo → Except String String) :
    (list_sheets metadataSheets).Pairwise (fun a b => a.index ≤ b.index) ∧
    export_spreadsheet_as_csv metadataTitle metadataSheets outputDir none
        exportSheet
      = .ok (((list_sheets metadataSheets).filter
            fun s => (exportSheet s).isOk).map
          (fun s => outputDir ++ "/" ++ sanitize metadataTitle ++ "/"
            ++ sanitize s.title ++ ".csv")) ∧
    export_spreadsheet_as_csv "Book" exampleSheets "." none exampleExporter
      = .ok ["./Book/A.csv", "./Book/C.csv"] := by
  refine ⟨?_, ?_, ?_⟩
  · have h := @List.sorted_mergeSort SheetInfo
      (fun a b => decide (a.index ≤ b.index))
      (fun a b c => by simpa using Nat.le_trans)
      (fun a b => by simpa using Nat.le_total a.index b.index)
      (metadataSheets.map fun props =>
        { sheetId := props.sheetId
          title := props.title.getD "Untitled"
          index := props.index.getD 0 })
    exact h.imp (by simp)
  · rw [export_spreadsheet_as_csv, exportFiles_eq_map_filter]
  · have hsheets : list_sheets exampleSheets
        = [{ sheetId := some 10, title := "A", index := 0 },
           { sheetId := some 11, title := "B", index := 1 },
           { sheetId := some 12, title := "C", index := 2 }] := by
      rw [list_sheets, List.mergeSort_of_sorted (by decide)]
      rfl
    simp only [export_spreadsheet_as_csv, hsheets]
    rfl

end Sheets

/-! ## `gdrive_utils/docs.py` : tabs and the document tree walker -/

namespace Docs

/-- A node of the nested document-content tree walked by `extract_text`
inside `export_tab_as_markdown`: a text run with its literal string, a
paragraph holding child elements, a table holding rows of cells (each
cell holding a content sub-tree), or any other element kind. -/
inductive Element where
  | textRun (content : String)
  | paragraph (elements : List Element)
  | table (rows : List (List (List Element)))
  | other

mutual

/-- The recursive `extract_text(elements)` helper: walk the sibling list
in order, collecting text fragments. -/
def extract_text : List Element → List String
  | [] => []
  | e :: es => extractElement e ++ extract_text es

/-- The per-element step of `extract_text`: a text run contributes its
content, a paragraph its children's text, a table its cells row by row
and cell by cell, anything else contributes nothing. -/
def extractElement : Element → List String
  | .textRun c => [c]
  | .paragraph es => extract_text es
  | .table rows => extractRows rows
  | .other => []

/-- `for row in element['table'].get('tableRows', [])`. -/
def extractRows : List (List (List Element)) → List String
  | [] => []
  | row :: rows => extractCells row ++ extractRows rows

/-- `for cell in row.get('tableCells', [])`. -/
def extractCells : List (List Element) → List String
  | [] => []
  | cell :: cells => extract_text cell ++ extractCells cells

end

/-- `''.join(extract_text(content))` at the end of
`export_tab_as_markdown`. -/
def extractedText (content : List Element) : String :=
  String.join (extract_text content)

theorem extract_text_append (xs ys : List Element) :
    extract_text (xs ++ ys) = extract_text xs ++ extract_text ys := by
  induction xs with
  | nil => rfl
  | cons e es ih =>
    rw [List.cons_append]
    show extractElement e ++ extract_text (es ++ ys)
      = extractElement e ++ extract_text es ++ extract_text ys
    rw [ih, List.append_assoc]

theorem extractRows_eq_flatten (rows : List (List (List Element))) :
    extractRows rows
      = (rows.map fun row => (row.map extract_text).flatten).flatten := by
  induction rows with
  | nil => rfl
  | cons row rows ih =>
    show extractCells row ++ extractRows rows = _
    rw [ih, List.map_cons, List.flatten_cons]
    congr 1
    induction row with
    | nil => rfl
    | cons cell cells ihc =>
      show extract_text cell ++ extractCells cells = _
      rw [ihc, List.map_cons, List.flatten_cons]

/-- C6: the tree walker returns all text-run contents in document order —
a text run contributes its literal string, a paragraph its children's
text in order, a table its cells' sub-tree text row by row and cell by
cell left to right, any other element nothing, and sibling order is never
reordered; a 2×2 table of single text runs yields the four contents
concatenated in row-major, left-to-right order. -/
theorem extract_text_document_order :
    (∀ xs ys : List Element,
      extract_text (xs ++ ys) = extract_text xs ++ extract_text ys) ∧
    (∀ c : String, extractElement (.textRun c) = [c]) ∧
    (∀ es : List Element, extractElement (.paragraph es) = extract_text es) ∧
    (∀ rows : List (List (List Element)),
      extractElement (.table rows)
        = (rows.map fun row => (row.map extract_text).flatten).flatten) ∧
    extractElement .other = [] ∧
    extractedText
      [.table [[[.textRun "a"], [.textRun "b"]], [[.textRun "c"], [.textRun "d"]]]]
      = "abcd" :=
  ⟨extract_text_append, fun _ => rfl, fun _ => rfl,
   fun rows => extractRows_eq_flatten rows, rfl, rfl⟩

/-! ### `list_document_tabs` -/

/-- The `tabProperties` sub-dictionary of a tab; every field optional. -/
structure TabProps where
  tabId : Option String
  title : Option String
  displayName : Option String
  index : Option Nat

/-- A raw tab object of the document structure. -/
structure Tab where
  tabProperties : Option TabProps
  tabId : Option String
  title : Option String
  displayName : Option String

/-- The document fields consumed by `list_document_tabs`. -/
structure Document where
  title : Option String
  tabs : List Tab

/-- One entry of the list returned by `list_document_tabs` (the optional
`childObjectId` passthrough is not modelled; no claim concerns it). -/
structure TabInfo where
  tabId : String
  title : String
  index : Nat
  isDefault : Bool := false
deriving DecidableEq

/-- Python truthiness of an optional string: `None` and `''` are falsy. -/
def truthy : Option String → Option String
  | some s => if s = "" then none else some s
  | none => none

/-- The `or`-chain resolving a tab's title (docs.py lines 64-70). -/
def resolveTitle (props : TabProps) (tab : Tab) (idx : Nat) : String :=
  ((((truthy props.title).orElse fun _ => truthy props.displayName).orElse
      fun _ => truthy tab.title).orElse fun _ => truthy tab.displayName).getD
    ("Tab " ++ toString (idx + 1))

/-- `tab_properties.get('tabId') or tab.get('tabId', f'tab_{idx}')`. -/
def resolveTabId (props : TabProps) (tab : Tab) (idx : Nat) : String :=
  match truthy props.tabId with
  | some v => v
  | none => tab.tabId.getD ("tab_" ++ toString idx)

/-- The empty `tabProperties` default (`tab.get('tabProperties', {})`). -/
def emptyProps : TabProps := ⟨none, none, none, none⟩

/-- `gdrive_utils.docs.list_document_tabs`, with the fetched document as
input: zero reported tabs synthesize one default tab titled after the
document; otherwise each tab is described via the fallback chains. -/
def list_document_tabs (doc : Document) : List TabInfo :=
  if doc.tabs.isEmpty then
    [{ tabId := "default", title := doc.title.getD "Untitled", index := 0,
       isDefault := true }]
  else
    doc.tabs.enum.map fun p =>
      let props := p.2.tabProperties.getD emptyProps
      { tabId := resolveTabId props p.2 p.1
        title := resolveTitle props p.2 p.1
        index := props.index.getD p.1
        isDefault := false }

theorem truthy_eq_self {o : Option String} (h : o ≠ some "") : truthy o = o := by
  cases o with
  | none => rfl
  | some s =>
    have : s ≠ "" := fun hs => h (by rw [hs])
    simp [truthy, this]

theorem truthy_some_ne {o : Option String} {s : String}
    (h : truthy o = some s) : s ≠ "" := by
  cases o with
  | none => simp [truthy] at h
  | some t =>
    by_cases ht : t = "" <;> simp [truthy, ht] at h
    rw [← h]; exact ht

theorem tab_label_ne_empty (idx : Nat) : "Tab " ++ toString (idx + 1) ≠ "" := by
  intro h
  have := congrArg String.length h
  rw [String.length_append, show "Tab ".length = 4 from rfl,
    show "".length = 0 from rfl] at this
  omega

theorem resolveTitle_ne_empty (props : TabProps) (tab : Tab) (idx : Nat) :
    resolveTitle props tab idx ≠ "" := by
  unfold resolveTitle
  cases h1 : truthy props.title with
  | some s => simpa [Option.orElse] using truthy_some_ne h1
  | none =>
    cases h2 : truthy props.displayName with
    | some s => simpa [Option.orElse] using truthy_some_ne h2
    | none =>
      cases h3 : truthy tab.title with
      | some s => simpa [Option.orElse] using truthy_some_ne h3
      | none =>
        cases h4 : truthy tab.displayName with
        | some s => simpa [Option.orElse] using truthy_some_ne h4
        | none => simpa [Option.orElse] using tab_label_ne_empty idx

/-- C7: for the tab at 0-based position `idx`, the resolved title is the
first available of: tab-properties title, tab-properties display name,
tab-level title, tab-level display name; when all four are absent, the
positional label `Tab <idx+1>` ("available" meaning present and
non-empty, Python truthiness). -/
theorem tab_title_fallback_chain (doc : Document) (idx : Nat) (tab : Tab)
    (htab : doc.tabs[idx]? = some tab)
    (h1 : (tab.tabProperties.getD emptyProps).title ≠ some "")
    (h2 : (tab.tabProperties.getD emptyProps).displayName ≠ some "")
    (h3 : tab.title ≠ some "")
    (h4 : tab.displayName ≠ some "") :
    ∃ info, (list_document_tabs doc)[idx]? = some info ∧
      info.title
        = (((((tab.tabProperties.getD emptyProps).title).orElse
              fun _ => (tab.tabProperties.getD emptyProps).displayName).orElse
              fun _ => tab.title).orElse
              fun _ => tab.displayName).getD ("Tab " ++ toString (idx + 1)) := by
  have hne : doc.tabs.isEmpty = false := by
    cases hd : doc.tabs with
    | nil => rw [hd] at htab; simp at htab
    | cons a l => simp [hd]
  rw [list_document_tabs, if_neg (by rw [hne]; exact Bool.false_ne_true)]
  refine ⟨{ tabId := resolveTabId (tab.tabProperties.getD emptyProps) tab idx,
            title := resolveTitle (tab.tabProperties.getD emptyProps) tab idx,
            index := (tab.tabProperties.getD emptyProps).index.getD idx,
            isDefault := false }, ?_, ?_⟩
  · rw [List.getElem?_map, List.enum, List.getElem?_enumFrom, htab]
    simp
  · show resolveTitle (tab.tabProperties.getD emptyProps) tab idx = _
    rw [resolveTitle, truthy_eq_self h1, truthy_eq_self h2,
      truthy_eq_self h3, truthy_eq_self h4]

/-- Witness for C7: a tab whose four title sources are all absent gets
the positional label `Tab 1`. -/
theorem tab_title_fallback_chain_witness :
    ∃ info,
      (list_document_tabs
        { title := some "Doc",
          tabs := [{ tabProperties := some ⟨some "t0", none, none, none⟩,
                     tabId := none, title := none, displayName := none }] })[0]?
        = some info ∧
      info.title = "Tab 1" :=
  tab_title_fallback_chain
    { title := some "Doc",
      tabs := [{ tabProperties := some ⟨some "t0", none, none, none⟩,
                 tabId := none, title := none, displayName := none }] }
    0
    { tabProperties := some ⟨some "t0", none, none, none⟩,
      tabId := none, title := none, displayName := none }
    rfl (by simp [emptyProps]) (by simp [emptyProps]) (by simp) (by simp)

/-- C8: a document reporting zero tabs yields exactly one synthesized
default tab (identifier `default`, index 0) titled after the document;
`list_document_tabs` never returns an empty list. -/
theorem default_tab_synthesized (doc : Document) (t : String)
    (htabs : doc.tabs = []) (htitle : doc.title = some t) :
    list_document_tabs doc
      = [{ tabId := "default", title := t, index := 0, isDefault := true }] ∧
    ∀ d : Document, list_document_tabs d ≠ [] := by
  constructor
  · rw [list_document_tabs, if_pos (by rw [htabs]; rfl), htitle]
    rfl
  · intro d
    rw [list_document_tabs]
    split
    · simp
    · next h =>
      have hlen : d.tabs ≠ [] := by
        intro hd
        rw [hd] at h
        exact h rfl
      simp [List.map_eq_nil_iff, List.enum_eq_nil, hlen]

/-- Witness for C8 at a concrete document with no tabs. -/
theorem default_tab_synthesized_witness :
    list_document_tabs { title := some "My Doc", tabs := [] }
      = [{ tabId := "default", title := "My Doc", index := 0,
           isDefault := true }] ∧
    ∀ d : Document, list_document_tabs d ≠ [] :=
  default_tab_synthesized { title := some "My Doc", tabs := [] } "My Doc"
    rfl rfl

/-- C10: in the tab branch of `list_document_tabs`, an empty-string title
source is skipped exactly like an absent one, so no returned tab has an
empty title; a tab whose four title sources are all present but empty
still gets the positional label. -/
theorem tab_title_empty_sources (doc : Document) (hne : doc.tabs ≠ []) :
    (∀ info ∈ list_document_tabs doc, info.title ≠ "") ∧
    list_document_tabs
      { title := some "Doc",
        tabs := [{ tabProperties := some ⟨some "id1", some "", some "", none⟩,
                   tabId := none, title := some "", displayName := some "" }] }
      = [{ tabId := "id1", title := "Tab 1", index := 0,
           isDefault := false }] := by
  constructor
  · intro info hinfo
    rw [list_document_tabs, if_neg (by simp [hne])] at hinfo
    obtain ⟨p, _hp, rfl⟩ := List.mem_map.mp hinfo
    exact resolveTitle_ne_empty _ _ _
  · rfl

/-- Witness for C10 at a concrete one-tab document. -/
theorem tab_title_empty_sources_witness :
    (∀ info ∈ list_document_tabs
        { title := some "Doc",
          tabs := [{ tabProperties := none, tabId := none, title := none,
                     displayName := none }] },
      info.title ≠ "") ∧
    list_document_tabs
      { title := some "Doc",
        tabs := [{ tabProperties := some ⟨some "id1", some "", some "", none⟩,
                   tabId := none, title := some "", displayName := some "" }] }
      = [{ tabId := "id1", title := "Tab 1", index := 0,
           isDefault := false }] :=
  tab_title_empty_sources
    { title := some "Doc",
      tabs := [{ tabProperties := none, tabId := none, title := none,
                 displayName := none }] }
    (by simp)

end Docs

/-! ## `gcmd/cli.py` : command handlers -/

namespace Cli

/-- Python `x or d` for an optional string argument (`None` and `''` are
falsy). -/
def pyOrStr (o : Option String) (d : String) : String :=
  match o with
  | some s => if s = "" then d else s
  | none => d

/-- The body of a handler runs inside `try:` and produces the lines
printed to stderr so far together with either a return code or a raised
error. -/
def HandlerBody := List String × Except String Nat

/-- The `try/except` wrapper shared by every command handler: a completed
body returns its code, a raised error is printed to stderr as
`Error: <e>` and the handler returns 1. -/
def runHandler : HandlerBody → Nat × List String
  | (out, .ok code) => (code, out)
  | (out, .error e) => (1, out ++ ["Error: " ++ e])

/-- The body of `cmd_export`: extract the ID, fetch the metadata
(`mimeType` field), then branch: spreadsheets export CSVs, documents
export markdown (all tabs or single file), anything else raises. -/
def cmd_export_body (all_tabs : Bool) (output : Option String)
    (extract : Except String String)
    (get_file_metadata : String → Except String (Option String))
    (export_spreadsheet : String → String → Except String (List String))
    (export_all_tabs : String → String → Except String (List String))
    (export_doc_md : String → Option String → Except String String) :
    HandlerBody :=
  match extract with
  | .error e => ([], .error e)
  | .ok file_id =>
    match get_file_metadata file_id with
    | .error e => ([], .error e)
    | .ok mimeField =>
      let mime_type := mimeField.getD ""
      if mime_type = "application/vnd.google-apps.spreadsheet" then
        let output_dir := pyOrStr output "."
        let pre := ["Exporting spreadsheet to: " ++ output_dir]
        match export_spreadsheet file_id output_dir with
        | .error e => (pre, .error e)
        | .ok files =>
            (pre ++ ["\n✓ Successfully exported "
                ++ toString files.length ++ " sheet(s):"]
              ++ files.map (fun f => "  - " ++ f), .ok 0)
      else if mime_type = "application/vnd.google-apps.document" then
        if all_tabs then
          let output_dir := pyOrStr output "."
          let pre := ["Exporting all tabs to: " ++ output_dir]
          match export_all_tabs file_id output_dir with
          | .error e => (pre, .error e)
          | .ok files =>
              (pre ++ ["\n✓ Successfully exported "
                  ++ toString files.length ++ " tab(s):"]
                ++ files.map (fun f => "  - " ++ f), .ok 0)
        else
          match export_doc_md file_id output with
          | .error e => ([], .error e)
          | .ok result =>
              (if result ≠ "stdout" then ["Exported to: " ++ result] else [],
                .ok 0)
      else
        ([], .error ("Unsupported file type: " ++ mime_type
          ++ ". Export supports Google Docs (markdown) and Google Sheets (CSV)."))

/-- `gcmd.cli.cmd_export` as exit code and stderr lines. -/
def cmd_export (all_tabs : Bool) (output : Option String)
    (extract : Except String String)
    (get_file_metadata : String → Except String (Option String))
    (export_spreadsheet : String → String → Except String (List String))
    (export_all_tabs : String → String → Except String (List String))
    (export_doc_md : String → Option String → Except String String) :
    Nat × List String :=
  runHandler (cmd_export_body all_tabs output extract get_file_metadata
    export_spreadsheet export_all_tabs export_doc_md)

/-- The body of `cmd_download`. -/
def cmd_download_body (output : Option String)
    (extract : Except String String)
    (download_file : String → Option String → Except String String) :
    HandlerBody :=
  match extract with
  | .error e => ([], .error e)
  | .ok file_id =>
    match download_file file_id output with
    | .error e => ([], .error e)
    | .ok result => (["Downloaded to: " ++ result], .ok 0)

/-- `gcmd.cli.cmd_download`. -/
def cmd_download (output : Option String)
    (extract : Except String String)
    (download_file : String → Option String → Except String String) :
    Nat × List String :=
  runHandler (cmd_download_body output extract download_file)

/-- The body of `cmd_info`: extract and fetch metadata (all the
informational printing goes to stdout); the optional document-structure
and comments sections run inside their own inner `try/except` blocks that
print a note and continue, so their outcomes never raise out of the
body. -/
def cmd_info_body (verbose : Bool)
    (extract : Except String String)
    (get_file_metadata : Bool → String → Except String Unit)
    (doc_structure_section : Except String Unit)
    (comments_section : Except String Unit) :
    HandlerBody :=
  match extract with
  | .error e => ([], .error e)
  | .ok file_id =>
    match get_file_metadata verbose file_id with
    | .error e => ([], .error e)
    | .ok _ =>
      let _ := doc_structure_section
      let _ := comments_section
      ([], .ok 0)

/-- `gcmd.cli.cmd_info`. -/
def cmd_info (verbose : Bool)
    (extract : Except String String)
    (get_file_metadata : Bool → String → Except String Unit)
    (doc_structure_section : Except String Unit)
    (comments_section : Except String Unit) :
    Nat × List String :=
  runHandler (cmd_info_body verbose extract get_file_metadata
    doc_structure_section comments_section)

/-- The body of `cmd_list`: the file list goes to stdout; stderr gets a
summary line when something was found. -/
def cmd_list_body (list_files : Except String (List String)) : HandlerBody :=
  match list_files with
  | .error e => ([], .error e)
  | .ok files =>
    (if files.isEmpty then []
     else ["\nFound " ++ toString files.length ++ " file(s)"], .ok 0)

/-- `gcmd.cli.cmd_list`. -/
def cmd_list (list_files : Except String (List String)) : Nat × List String :=
  runHandler (cmd_list_body list_files)

/-- The body of `cmd_tasks`: either the task lists or the tasks of one
list, each with a stderr summary when non-empty. -/
def cmd_tasks_body (list_all_lists : Bool)
    (list_task_lists : Except String (List String))
    (list_tasks : Except String (List String)) : HandlerBody :=
  if list_all_lists then
    match list_task_lists with
    | .error e => ([], .error e)
    | .ok ls =>
      (if ls.isEmpty then []
       else ["Found " ++ toString ls.length ++ " task list(s)"], .ok 0)
  else
    match list_tasks with
    | .error e => ([], .error e)
    | .ok ts =>
      (if ts.isEmpty then []
       else ["Found " ++ toString ts.length ++ " task(s)"], .ok 0)

/-- `gcmd.cli.cmd_tasks`. -/
def cmd_tasks (list_all_lists : Bool)
    (list_task_lists : Except String (List String))
    (list_tasks : Except String (List String)) : Nat × List String :=
  runHandler (cmd_tasks_body list_all_lists list_task_lists list_tasks)

/-- The handler contract: a body that either completes with code 0 or
raises yields exit 0 on completion, and exit 1 with `Error: <e>` printed
as the final stderr line on a raise. -/
theorem runHandler_spec (p : HandlerBody)
    (h : p.2 = .ok 0 ∨ ∃ e, p.2 = .error e) :
    ((runHandler p).1 = 0 ∧ p.2 = .ok 0) ∨
    (∃ e, p.2 = .error e ∧ (runHandler p).1 = 1 ∧
      (runHandler p).2.getLast? = some ("Error: " ++ e)) := by
  obtain ⟨out, r⟩ := p
  rcases h with h | ⟨e, h⟩ <;> simp only at h <;> subst h
  · exact Or.inl ⟨rfl, rfl⟩
  · exact Or.inr ⟨e, rfl, rfl, by simp [runHandler]⟩

theorem cmd_export_body_cases (all_tabs : Bool) (output : Option String)
    (extract : Except String String)
    (get_file_metadata : String → Except String (Option String))
    (export_spreadsheet : String → String → Except String (List String))
    (export_all_tabs : String → String → Except String (List String))
    (export_doc_md : String → Option String → Except String String) :
    (cmd_export_body all_tabs output extract get_file_metadata
        export_spreadsheet export_all_tabs export_doc_md).2 = .ok 0 ∨
    ∃ e, (cmd_export_body all_tabs output extract get_file_metadata
        export_spreadsheet export_all_tabs export_doc_md).2 = .error e := by
  unfold cmd_export_body
  dsimp only
  repeat' split
  all_goals first
    | exact Or.inl rfl
    | exact Or.inr ⟨_, rfl⟩

theorem cmd_download_body_cases (output : Option String)
    (extract : Except String String)
    (download_file : String → Option String → Except String String) :
    (cmd_download_body output extract download_file).2 = .ok 0 ∨
    ∃ e, (cmd_download_body output extract download_file).2 = .error e := by
  unfold cmd_download_body
  repeat' split
  all_goals first
    | exact Or.inl rfl
    | exact Or.inr ⟨_, rfl⟩

theorem cmd_info_body_cases (verbose : Bool)
    (extract : Except String String)
    (get_file_metadata : Bool → String → Except String Unit)
    (doc_structure_section : Except String Unit)
    (comments_section : Except String Unit) :
    (cmd_info_body verbose extract get_file_metadata doc_structure_section
        comments_section).2 = .ok 0 ∨
    ∃ e, (cmd_info_body verbose extract get_file_metadata
        doc_structure_section comments_section).2 = .error e := by
  unfold cmd_info_body
  repeat' split
  all_goals first
    | exact Or.inl rfl
    | exact Or.inr ⟨_, rfl⟩

theorem cmd_list_body_cases (list_files : Except String (List String)) :
    (cmd_list_body list_files).2 = .ok 0 ∨
    ∃ e, (cmd_list_body list_files).2 = .error e := by
  unfold cmd_list_body
  repeat' split
  all_goals first
    | exact Or.inl rfl
    | exact Or.inr ⟨_, rfl⟩

theorem cmd_tasks_body_cases (list_all_lists : Bool)
    (list_task_lists : Except String (List String))
    (list_tasks : Except String (List String)) :
    (cmd_tasks_body list_all_lists list_task_lists list_tasks).2 = .ok 0 ∨
    ∃ e, (cmd_tasks_body list_all_lists list_task_lists list_tasks).2
      = .error e := by
  unfold cmd_tasks_body
  repeat' split
  all_goals first
    | exact Or.inl rfl
    | exact Or.inr ⟨_, rfl⟩

/-- C9: every command handler (export, download, info, list, tasks)
either completes its body and returns exit code 0, or an error raised in
the body is caught, printed to stderr as `Error: <e>`, and the handler
returns exit code 1 — no error escapes, and the exit codes are uniformly
0 on success and 1 on failure across all five commands. -/
theorem cli_handlers_uniform_exit :
    (∀ at_ o ex md es ea ed,
      ((cmd_export at_ o ex md es ea ed).1 = 0 ∧
        (cmd_export_body at_ o ex md es ea ed).2 = .ok 0) ∨
      (∃ e, (cmd_export_body at_ o ex md es ea ed).2 = .error e ∧
        (cmd_export at_ o ex md es ea ed).1 = 1 ∧
        (cmd_export at_ o ex md es ea ed).2.getLast?
          = some ("Error: " ++ e))) ∧
    (∀ o ex dl,
      ((cmd_download o ex dl).1 = 0 ∧
        (cmd_download_body o ex dl).2 = .ok 0) ∨
      (∃ e, (cmd_download_body o ex dl).2 = .error e ∧
        (cmd_download o ex dl).1 = 1 ∧
        (cmd_download o ex dl).2.getLast? = some ("Error: " ++ e))) ∧
    (∀ v ex md ds cs,
      ((cmd_info v ex md ds cs).1 = 0 ∧
        (cmd_info_body v ex md ds cs).2 = .ok 0) ∨
      (∃ e, (cmd_info_body v ex md ds cs).2 = .error e ∧
        (cmd_info v ex md ds cs).1 = 1 ∧
        (cmd_info v ex md ds cs).2.getLast? = some ("Error: " ++ e))) ∧
    (∀ lf,
      ((cmd_list lf).1 = 0 ∧ (cmd_list_body lf).2 = .ok 0) ∨
      (∃ e, (cmd_list_body lf).2 = .error e ∧ (cmd_list lf).1 = 1 ∧
        (cmd_list lf).2.getLast? = some ("Error: " ++ e))) ∧
    (∀ la tl ts,
      ((cmd_tasks la tl ts).1 = 0 ∧
        (cmd_tasks_body la tl ts).2 = .ok 0) ∨
      (∃ e, (cmd_tasks_body la tl ts).2 = .error e ∧
        (cmd_tasks la tl ts).1 = 1 ∧
        (cmd_tasks la tl ts).2.getLast? = some ("Error: " ++ e))) :=
  ⟨fun at_ o ex md es ea ed =>
      runHandler_spec _ (cmd_export_body_cases at_ o ex md es ea ed),
   fun o ex dl => runHandler_spec _ (cmd_download_body_cases o ex dl),
   fun v ex md ds cs =>
      runHandler_spec _ (cmd_info_body_cases v ex md ds cs),
   fun lf => runHandler_spec _ (cmd_list_body_cases lf),
   fun la tl ts => runHandler_spec _ (cmd_tasks_body_cases la tl ts)⟩

end Cli

end Gcmd
